import Mathlib

/-!
Shallow embedding of the control-plane modules of rust-czmq:
`src/zmonitor.rs` (connection-event monitor and its event vocabulary)
and `src/zauth.rs` (authentication gatekeeper). Each public operation
is modelled as the command messages it sends on the actor channel
(each message a list of string frames) together with whether the
operation then blocks on the status reply of the worker.
-/

/-- Event categories of the `ZMonitorEvents` enum in `src/zmonitor.rs`. -/
inductive ZMonitorEvents where
  | Connected
  | ConnectDelayed
  | ConnectRetried
  | Listening
  | BindFailed
  | Accepted
  | AcceptFailed
  | Closed
  | CloseFailed
  | Disconnected
  | MonitorStopped
  | All
  | Unknown
deriving DecidableEq, Repr

/-- The enum-to-wire-token mapping `ZMonitorEvents::to_str` from `src/zmonitor.rs`. -/
def ZMonitorEvents.to_str : ZMonitorEvents → String
  | .Connected      => "CONNECTED"
  | .ConnectDelayed => "CONNECT_DELAYED"
  | .ConnectRetried => "CONNECT_RETRIED"
  | .Listening      => "LISTENING"
  | .BindFailed     => "BIND_FAILED"
  | .Accepted       => "ACCEPTED"
  | .AcceptFailed   => "ACCEPT_FAILED"
  | .Closed         => "CLOSED"
  | .CloseFailed    => "CLOSE_FAILED"
  | .Disconnected   => "DISCONNECTED"
  | .MonitorStopped => "MONITOR_STOPPED"
  | .All            => "ALL"
  | .Unknown        => "UNKNOWN"

/-- The wire-token-to-enum mapping `ZMonitorEvents::from_str` from `src/zmonitor.rs`. -/
def ZMonitorEvents.from_str (event : String) : ZMonitorEvents :=
  match event with
  | "CONNECTED"       => ZMonitorEvents.Connected
  | "CONNECT_DELAYED" => ZMonitorEvents.ConnectDelayed
  | "CONNECT_RETRIED" => ZMonitorEvents.ConnectRetried
  | "LISTENING"       => ZMonitorEvents.Listening
  | "BIND_FAILED"     => ZMonitorEvents.BindFailed
  | "ACCEPTED"        => ZMonitorEvents.Accepted
  | "ACCEPT_FAILED"   => ZMonitorEvents.AcceptFailed
  | "CLOSED"          => ZMonitorEvents.Closed
  | "CLOSE_FAILED"    => ZMonitorEvents.CloseFailed
  | "DISCONNECTED"    => ZMonitorEvents.Disconnected
  | "MONITOR_STOPPED" => ZMonitorEvents.MonitorStopped
  | "ALL"             => ZMonitorEvents.All
  | _                 => ZMonitorEvents.Unknown

/-- The twelve recognized wire tokens: the left-hand sides of the non-default
arms of `ZMonitorEvents::from_str`. -/
def wireTokens : List String :=
  ["CONNECTED", "CONNECT_DELAYED", "CONNECT_RETRIED", "LISTENING", "BIND_FAILED",
   "ACCEPTED", "ACCEPT_FAILED", "CLOSED", "CLOSE_FAILED", "DISCONNECTED",
   "MONITOR_STOPPED", "ALL"]

/-- Modelled from the spec: `ZMsg::new` (the ZMsg type lives outside src)
creates an empty command message; a command message is an ordered sequence
of frames (spec section 3). -/
def ZMsg.new : List String := []

/-- Modelled from the spec: `ZMsg::addstr` (outside src) appends one string
frame to a command message (spec section 3, one frame per argument). -/
def ZMsg.addstr (msg : List String) (s : String) : List String := msg ++ [s]

/-- Modelled from the spec: one public operation on a gatekeeper or monitor
handle, recorded as the command messages it transmits over the channel and
whether it then blocks on the status reply. The channel primitives
`ZActor::send` and `ZSock::wait` live outside src; spec section 4.1
describes send as transmitting one multi-frame message without waiting
and the status wait as a separate blocking call. -/
structure ActorCall where
  msgs : List (List String)
  waits : Bool
deriving DecidableEq, Repr

/-- Modelled from the spec: `ZActor::send_str` (outside src) sends a single
one-frame command message, as in the verb tables of spec section 6 where
START and VERBOSE carry no argument frames. -/
def ZActor.send_str (s : String) : List String := [s]

/-- Modelled from the spec: the outcome the channel gives one call.
The field sendOk tells whether transmitting a given message succeeds and
waitOk whether the worker posts a success status (spec section 4.1). -/
structure ChannelEnv where
  sendOk : List String → Bool
  waitOk : Bool

/-- Runs one call against a channel environment: the call succeeds exactly
when every message it sends is transmitted and, when the call waits for
status, the status reply reports success. -/
def runCall (env : ChannelEnv) (c : ActorCall) : Bool :=
  c.msgs.all env.sendOk && (!c.waits || env.waitOk)

/-- Result of a gatekeeper call as seen by the caller, including divergence
by panic, which never produces the Rust Result value. -/
inductive CallResult where
  | ok
  | err
  | panics (msg : String)
deriving DecidableEq, Repr

/-- `ZAuth::allow` from `src/zauth.rs`: builds the message ALLOW, address;
sends it; then waits on the status reply. -/
def ZAuth.allow (address : String) : ActorCall :=
  let msg := ZMsg.new
  let msg := ZMsg.addstr msg "ALLOW"
  let msg := ZMsg.addstr msg address
  { msgs := [msg], waits := true }

/-- `ZAuth::deny` from `src/zauth.rs`: builds the message DENY, address;
sends it; then waits on the status reply. -/
def ZAuth.deny (address : String) : ActorCall :=
  let msg := ZMsg.new
  let msg := ZMsg.addstr msg "DENY"
  let msg := ZMsg.addstr msg address
  { msgs := [msg], waits := true }

/-- `ZAuth::load_plain` from `src/zauth.rs`: builds the message PLAIN,
filename; sends it; then waits on the status reply. -/
def ZAuth.load_plain (filename : String) : ActorCall :=
  let msg := ZMsg.new
  let msg := ZMsg.addstr msg "PLAIN"
  let msg := ZMsg.addstr msg filename
  { msgs := [msg], waits := true }

/-- `ZAuth::load_curve` from `src/zauth.rs`: builds the message CURVE then
either the given location or the wildcard frame; sends it; then waits on
the status reply. -/
def ZAuth.load_curve (location : Option String) : ActorCall :=
  let msg := ZMsg.new
  let msg := ZMsg.addstr msg "CURVE"
  let msg :=
    match location with
    | some loc => ZMsg.addstr msg loc
    | none => ZMsg.addstr msg "*"
  { msgs := [msg], waits := true }

/-- Command messages sent by `ZAuth::load_gssapi` from `src/zauth.rs`: its
body diverges before any channel operation, so no message is ever sent. -/
def ZAuth.load_gssapi_msgs : List (List String) := []

/-- Outcome of `ZAuth::load_gssapi` from `src/zauth.rs`: the body is the
Rust macro call that panics with the message "not implemented"; the
function diverges and never produces its Result value. -/
def ZAuth.load_gssapi_result : CallResult := CallResult.panics "not implemented"

/-- `ZAuth::verbose` from `src/zauth.rs`: sends the one-frame message
VERBOSE, then waits on the status reply. -/
def ZAuth.verbose : ActorCall :=
  { msgs := [ZActor.send_str "VERBOSE"], waits := true }

/-- `ZMonitor::set_attrs` from `src/zmonitor.rs`: builds the message whose
first frame is LISTEN followed by one frame per given category, in order,
and sends it without any status wait. -/
def ZMonitor.set_attrs (attrs : List ZMonitorEvents) : ActorCall :=
  let msg := ZMsg.new
  let msg := ZMsg.addstr msg "LISTEN"
  let msg := attrs.foldl (fun m a => ZMsg.addstr m a.to_str) msg
  { msgs := [msg], waits := false }

/-- `ZMonitor::get_attr` from `src/zmonitor.rs`, parametrized by the
decoded first frame of the received event message. The receive and decode
primitives live outside src; per spec section 3, the first frame either
decodes as a UTF-8 string (the inl case below) or yields its raw bytes
(the inr case), under a channel-failure layer (the Except layer). -/
def ZMonitor.get_attr (popped : Except Unit (String ⊕ List Nat)) :
    Except Unit (ZMonitorEvents ⊕ List Nat) :=
  match popped with
  | .error e => .error e
  | .ok (.inl s) => .ok (.inl (ZMonitorEvents.from_str s))
  | .ok (.inr v) => .ok (.inr v)

/-- `ZMonitor::start` from `src/zmonitor.rs`: sends the one-frame message
START, then waits on the status reply. -/
def ZMonitor.start : ActorCall :=
  { msgs := [ZActor.send_str "START"], waits := true }

/-- `ZMonitor::verbose` from `src/zmonitor.rs`: sends the one-frame message
VERBOSE and returns without waiting. -/
def ZMonitor.verbose : ActorCall :=
  { msgs := [ZActor.send_str "VERBOSE"], waits := false }

/-- Helper: the round-trip through the wire vocabulary is the identity on
every category, Unknown included. -/
theorem roundtrip_all_events (c : ZMonitorEvents) :
    ZMonitorEvents.from_str c.to_str = c := by
  cases c <;> rfl

/-- Helper: a string that is not one of the twelve recognized wire tokens
falls through to the default arm of from_str. -/
theorem from_str_of_not_mem (s : String) (h : s ∉ wireTokens) :
    ZMonitorEvents.from_str s = ZMonitorEvents.Unknown := by
  unfold ZMonitorEvents.from_str
  split <;> first | rfl | exact absurd (by decide) h

/-- Helper: the fold of addstr over a category list appends the wire token
of each category, in order. -/
theorem foldl_addstr_eq (attrs : List ZMonitorEvents) (init : List String) :
    attrs.foldl (fun m a => ZMsg.addstr m a.to_str) init
      = init ++ attrs.map ZMonitorEvents.to_str := by
  induction attrs generalizing init with
  | nil => simp
  | cons a as ih =>
    rw [List.foldl_cons, ih]
    simp [ZMsg.addstr]

/-- Claim C1: for every event category c other than Unknown, decoding the
wire token produced for c yields c again: from_str (to_str c) = c for the
twelve categories Connected through All. -/
theorem from_str_to_str_roundtrip (c : ZMonitorEvents)
    (_h : c ≠ ZMonitorEvents.Unknown) :
    ZMonitorEvents.from_str c.to_str = c :=
  roundtrip_all_events c

/-- Witness for C1: the round trip at the concrete category Connected. -/
theorem from_str_to_str_roundtrip_witness :
    ZMonitorEvents.Connected ≠ ZMonitorEvents.Unknown
    ∧ ZMonitorEvents.from_str (ZMonitorEvents.to_str ZMonitorEvents.Connected)
        = ZMonitorEvents.Connected :=
  ⟨by decide, from_str_to_str_roundtrip ZMonitorEvents.Connected (by decide)⟩

/-- Claim C2: for every string that is not one of the twelve recognized
wire tokens, from_str returns Unknown and never an error: the mapping is
total and fails closed. -/
theorem from_str_unrecognized_unknown (s : String) (h : s ∉ wireTokens) :
    ZMonitorEvents.from_str s = ZMonitorEvents.Unknown :=
  from_str_of_not_mem s h

/-- Witness for C2: the concrete unrecognized string NOT_A_TOKEN maps to
Unknown. -/
theorem from_str_unrecognized_unknown_witness :
    "NOT_A_TOKEN" ∉ wireTokens
    ∧ ZMonitorEvents.from_str "NOT_A_TOKEN" = ZMonitorEvents.Unknown :=
  ⟨by decide, from_str_unrecognized_unknown "NOT_A_TOKEN" (by decide)⟩

/-- Counterexample for C3: the claim says set_attrs waits for the status
reply of the worker, but at the concrete input consisting of the single
category All the call sends its message and does not wait. -/
theorem set_attrs_waits_cex :
    ¬ ((ZMonitor.set_attrs [ZMonitorEvents.All]).waits = true) := by
  decide

/-- Claim C3 (amended): for every list of event categories, set_attrs
builds and sends a single command message whose first frame is LISTEN and
whose remaining frames are each wire token of the categories in the order
given, duplicates preserved, and it is fire-and-forget: it returns without
waiting for any status reply. -/
theorem set_attrs_frames_fire_and_forget (attrs : List ZMonitorEvents) :
    (ZMonitor.set_attrs attrs).msgs
        = [("LISTEN" :: attrs.map ZMonitorEvents.to_str)]
    ∧ (ZMonitor.set_attrs attrs).waits = false := by
  refine ⟨?_, rfl⟩
  show [List.foldl (fun m a => ZMsg.addstr m a.to_str)
      (ZMsg.addstr ZMsg.new "LISTEN") attrs]
    = [("LISTEN" :: attrs.map ZMonitorEvents.to_str)]
  rw [foldl_addstr_eq]
  rfl

/-- Counterexample for C4: the claim says the not-implemented condition is
returned to the caller as a failure result, but the call diverges by
panic, so the failure result err is never produced. -/
theorem load_gssapi_result_cex : ZAuth.load_gssapi_result ≠ CallResult.err := by
  decide

/-- Claim C4 (amended): every call to load_gssapi panics with the message
"not implemented" (it diverges and never returns a result value to the
caller) and never sends any wire command to the worker. -/
theorem load_gssapi_panics_never_sends :
    ZAuth.load_gssapi_msgs = []
    ∧ ZAuth.load_gssapi_result = CallResult.panics "not implemented" :=
  ⟨rfl, rfl⟩

/-- Claim C5: get_attr never reports a decode failure as an error: a first
frame that is valid UTF-8 text yields the category given by the vocabulary
mapping, Unknown when the text is not a known token, and a frame that is
not valid UTF-8 yields the raw undecoded bytes verbatim as the alternate
outcome. -/
theorem get_attr_decode_never_errors :
    (∀ s, ZMonitor.get_attr (.ok (.inl s))
        = .ok (.inl (ZMonitorEvents.from_str s)))
    ∧ (∀ v, ZMonitor.get_attr (.ok (.inr v)) = .ok (.inr v))
    ∧ (∀ s, s ∉ wireTokens →
        ZMonitor.get_attr (.ok (.inl s)) = .ok (.inl ZMonitorEvents.Unknown)) :=
  ⟨fun _ => rfl, fun _ => rfl,
   fun s h => by rw [ZMonitor.get_attr, from_str_of_not_mem s h]⟩

/-- Witness for C5: at the concrete decodable garbage GARBAGE and the raw
byte frame 0xFF, get_attr yields Unknown and the bytes verbatim. -/
theorem get_attr_decode_never_errors_witness :
    "GARBAGE" ∉ wireTokens
    ∧ ZMonitor.get_attr (.ok (.inl "GARBAGE"))
        = .ok (.inl ZMonitorEvents.Unknown)
    ∧ ZMonitor.get_attr (.ok (.inr [255])) = .ok (.inr [255]) :=
  ⟨by decide, get_attr_decode_never_errors.2.2 "GARBAGE" (by decide),
   get_attr_decode_never_errors.2.1 [255]⟩

/-- Claim C6: every call to load_curve sends a command whose first frame is
CURVE with exactly one argument frame, the sentinel star when the location
is none and the given path when it is some path, and in both cases the
call waits for the status reply of the worker. -/
theorem load_curve_frames_and_wait :
    (∀ p, (ZAuth.load_curve (some p)).msgs = [["CURVE", p]])
    ∧ (ZAuth.load_curve none).msgs = [["CURVE", "*"]]
    ∧ (∀ loc, (ZAuth.load_curve loc).waits = true) :=
  ⟨fun _ => rfl, rfl, fun loc => by cases loc <;> rfl⟩

/-- Claim C7: start sends the single-frame command START and blocks on the
status reply of the worker before returning. -/
theorem start_sends_start_and_waits :
    ZMonitor.start.msgs = [["START"]] ∧ ZMonitor.start.waits = true :=
  ⟨rfl, rfl⟩

/-- Claim C8: the monitor verbose call is fire-and-forget: it sends the
single-frame command VERBOSE without waiting for a status reply, unlike
the gatekeeper verbose call, which sends VERBOSE and then waits. -/
theorem verbose_monitor_vs_gatekeeper :
    (ZMonitor.verbose.msgs = [["VERBOSE"]] ∧ ZMonitor.verbose.waits = false)
    ∧ (ZAuth.verbose.msgs = [["VERBOSE"]] ∧ ZAuth.verbose.waits = true) :=
  ⟨⟨rfl, rfl⟩, ⟨rfl, rfl⟩⟩

/-- Claim C9: for every address string, the empty string included, allow
sends the two-frame message ALLOW, address and deny sends DENY, address,
the address passed through uninterpreted; each call waits for the status
reply and its success is exactly the conjunction of the send succeeding
and the status reporting success. -/
theorem allow_deny_pass_through_and_wait (address : String) (env : ChannelEnv) :
    (ZAuth.allow address).msgs = [["ALLOW", address]]
    ∧ (ZAuth.deny address).msgs = [["DENY", address]]
    ∧ (ZAuth.allow address).waits = true
    ∧ (ZAuth.deny address).waits = true
    ∧ runCall env (ZAuth.allow address)
        = (env.sendOk ["ALLOW", address] && env.waitOk)
    ∧ runCall env (ZAuth.deny address)
        = (env.sendOk ["DENY", address] && env.waitOk) := by
  refine ⟨rfl, rfl, rfl, rfl, ?_, ?_⟩ <;>
    simp [runCall, ZAuth.allow, ZAuth.deny, ZMsg.addstr, ZMsg.new]

/-- Claim C10: the enum-to-token mapping is total over all thirteen
categories: to_str Unknown is the string UNKNOWN, which is not one of the
twelve recognized wire tokens, from_str maps UNKNOWN to Unknown, and the
round trip from_str (to_str c) = c holds for every category, Unknown
included. -/
theorem to_str_total_roundtrip_all :
    ZMonitorEvents.to_str ZMonitorEvents.Unknown = "UNKNOWN"
    ∧ "UNKNOWN" ∉ wireTokens
    ∧ ZMonitorEvents.from_str "UNKNOWN" = ZMonitorEvents.Unknown
    ∧ ∀ c, ZMonitorEvents.from_str c.to_str = c :=
  ⟨rfl, by decide, rfl, roundtrip_all_events⟩
